import Mathlib

/-!
Shallow embedding of src/OsuParser.ts (CirnoV/osu-json-parser).

JavaScript doubles are modelled as exact extended rationals (`JSNum`):
NaN, +Infinity, -Infinity, or an exact rational.  Floating-point rounding
is not modelled; every concrete input appearing in the theorems below is
exactly representable in an IEEE double and all arithmetic on it is exact,
so the model and the program agree on those inputs.  JS runtime TypeErrors
(property access on `undefined`, calling `.toLowerCase()` on a value that
is not a string, calling a non-callable value) are modelled with `Except`
as `JSError.typeError`; the single `throw new Error(...)` in the source is
`JSError.thrown`.  Property lookups on object literals model the prototype
chain: a key that misses the own properties continues on Object.prototype,
whose own property names (objectProtoNames) yield inherited accessors,
methods and the prototype object itself; assignment under the key
"__proto__" goes through the inherited Annex-B setter and, for the
primitive values this program stores, changes nothing.  The source is an ES
module, so its code is strict mode; the this value inside an inherited
method called as parser(line) is undefined, which fixes which inherited
methods throw (see protoChainThrows).
-/

/-- Model of a JavaScript number: NaN, the two infinities, or an exact rational. -/
inductive JSNum where
  | nan : JSNum
  | inf : JSNum
  | ninf : JSNum
  | num (q : ℚ) : JSNum
deriving DecidableEq, Repr

/-- JS unary minus. -/
def jsNeg : JSNum → JSNum
  | .nan => .nan
  | .inf => .ninf
  | .ninf => .inf
  | .num q => .num (-q)

/-- JS addition. -/
def jsAdd : JSNum → JSNum → JSNum
  | .nan, _ => .nan
  | _, .nan => .nan
  | .inf, .ninf => .nan
  | .ninf, .inf => .nan
  | .inf, _ => .inf
  | _, .inf => .inf
  | .ninf, _ => .ninf
  | _, .ninf => .ninf
  | .num p, .num q => .num (p + q)

/-- JS subtraction. -/
def jsSub (a b : JSNum) : JSNum := jsAdd a (jsNeg b)

/-- JS multiplication. -/
def jsMul : JSNum → JSNum → JSNum
  | .nan, _ => .nan
  | _, .nan => .nan
  | .inf, .inf => .inf
  | .inf, .ninf => .ninf
  | .ninf, .inf => .ninf
  | .ninf, .ninf => .inf
  | .inf, .num q => if 0 < q then .inf else if q < 0 then .ninf else .nan
  | .num q, .inf => if 0 < q then .inf else if q < 0 then .ninf else .nan
  | .ninf, .num q => if 0 < q then .ninf else if q < 0 then .inf else .nan
  | .num q, .ninf => if 0 < q then .ninf else if q < 0 then .inf else .nan
  | .num p, .num q => .num (p * q)

/-- JS division (zero has no sign in this model, so 1/0 is +Infinity; the
single use in the source divides by a strictly positive value). -/
def jsDiv : JSNum → JSNum → JSNum
  | .nan, _ => .nan
  | _, .nan => .nan
  | .inf, .inf => .nan
  | .inf, .ninf => .nan
  | .ninf, .inf => .nan
  | .ninf, .ninf => .nan
  | .inf, .num q => if q < 0 then .ninf else .inf
  | .ninf, .num q => if q < 0 then .inf else .ninf
  | .num _, .inf => .num 0
  | .num _, .ninf => .num 0
  | .num p, .num q =>
    if q = 0 then (if p = 0 then .nan else if 0 < p then .inf else .ninf)
    else .num (p / q)

/-- JS strict less-than; false whenever either side is NaN. -/
def jsLt : JSNum → JSNum → Bool
  | .nan, _ => false
  | _, .nan => false
  | .num p, .num q => decide (p < q)
  | .ninf, .ninf => false
  | .ninf, _ => true
  | _, .ninf => false
  | .inf, _ => false
  | .num _, .inf => true

/-- JS strict greater-than; false whenever either side is NaN. -/
def jsGt (a b : JSNum) : Bool := jsLt b a

/-- JS less-or-equal; false whenever either side is NaN. -/
def jsLe : JSNum → JSNum → Bool
  | .nan, _ => false
  | _, .nan => false
  | .num p, .num q => decide (p ≤ q)
  | .ninf, _ => true
  | .inf, .inf => true
  | .inf, .ninf => false
  | .inf, .num _ => false
  | .num _, .inf => true
  | .num _, .ninf => false

/-- Model of Math.abs. -/
def jsAbs : JSNum → JSNum
  | .nan => .nan
  | .inf => .inf
  | .ninf => .inf
  | .num q => .num |q|

/-- Model of Math.max on two arguments: NaN-propagating maximum. -/
def jsMax (a b : JSNum) : JSNum :=
  match a, b with
  | .nan, _ => .nan
  | _, .nan => .nan
  | _, _ => if jsLt a b then b else a

/-- Truncation toward zero of a rational, as in JS ToInt32. -/
def ratTrunc (q : ℚ) : ℤ := if q < 0 then ⌈q⌉ else ⌊q⌋

/-- The unsigned 32-bit pattern produced by JS ToInt32/ToUint32 (NaN and the
infinities map to 0); all bitwise operators in the source use masks below
bit 31, so the unsigned pattern determines their results. -/
def toBits32 : JSNum → ℕ
  | .num q => (Int.emod (ratTrunc q) 4294967296).toNat
  | _ => 0

/-- Number of iterations of a JS loop `for (let i = 0; i < n; i++)`.
NaN and -Infinity bounds give 0 iterations.  A +Infinity bound would not
terminate in JS; no reachable loop bound in the source is +Infinity, and the
model returns 0 there. -/
def jsLoopCount : JSNum → ℕ
  | .num q => if q ≤ 0 then 0 else (⌈q⌉).toNat
  | _ => 0

/-- Characters removed by String.prototype.trim (ASCII whitespace; the
exotic Unicode space characters do not occur in any input considered). -/
def isJsSpace (c : Char) : Bool :=
  c = ' ' ∨ c = '\t' ∨ c = '\n' ∨ c = '\r' ∨ c = '\x0b' ∨ c = '\x0c'

/-- Trim JS whitespace from both ends of a character list. -/
def jsTrimChars (l : List Char) : List Char :=
  ((l.dropWhile isJsSpace).reverse.dropWhile isJsSpace).reverse

/-- Split a character list at every occurrence of the separator, keeping
empty pieces, exactly like String.prototype.split with a one-character
separator. -/
def splitChAux (c : Char) : List Char → List Char → List (List Char)
  | acc, [] => [acc.reverse]
  | acc, x :: xs =>
    if x = c then acc.reverse :: splitChAux c [] xs else splitChAux c (x :: acc) xs

/-- Model of line.split(sep).map(s => s.trim()) for a one-character separator. -/
def jsSplitTrim (s : String) (c : Char) : List String :=
  (splitChAux c [] s.data).map (fun l => String.mk (jsTrimChars l))

/-- Numeric value of a digit list in the given base. -/
def digitsVal (base : ℕ) (toVal : Char → ℕ) (ds : List Char) : ℕ :=
  ds.foldl (fun a c => base * a + toVal c) 0

/-- Decimal digit value. -/
def decVal (c : Char) : ℕ := c.toNat - '0'.toNat

/-- Hexadecimal digit test. -/
def isHexCh (c : Char) : Bool :=
  c.isDigit ∨ ('a' ≤ c ∧ c ≤ 'f') ∨ ('A' ≤ c ∧ c ≤ 'F')

/-- Hexadecimal digit value. -/
def hexVal (c : Char) : ℕ :=
  if c.isDigit then decVal c
  else if 'a' ≤ c ∧ c ≤ 'f' then c.toNat - 'a'.toNat + 10
  else c.toNat - 'A'.toNat + 10

/-- Rational value of an unsigned decimal literal int.frac * 10^exp. -/
def ratOfParts (ip fp : List Char) (e : ℤ) : ℚ :=
  ((digitsVal 10 decVal (ip ++ fp) : ℕ) : ℚ) * (10 : ℚ) ^ (e - (fp.length : ℤ))

/-- Parse the body of an unsigned decimal numeric literal (digits, optional
fraction, optional exponent); none on any malformed remainder, matching the
StringNumericLiteral grammar used by JS Number(). -/
def parseDecCore (l : List Char) : Option ℚ :=
  let ip := l.takeWhile Char.isDigit
  let r1 := l.drop ip.length
  let fp := match r1 with
    | '.' :: rest => rest.takeWhile Char.isDigit
    | _ => []
  let r2 := match r1 with
    | '.' :: rest => rest.drop fp.length
    | _ => r1
  if ip.length + fp.length = 0 then none
  else
    match r2 with
    | [] => some (ratOfParts ip fp 0)
    | e :: rest =>
      if e = 'e' ∨ e = 'E' then
        let sgn : ℤ := match rest with
          | '-' :: _ => -1
          | _ => 1
        let ds := match rest with
          | '+' :: t => t
          | '-' :: t => t
          | t => t
        if ds ≠ [] ∧ ds.all Char.isDigit then
          some (ratOfParts ip fp (sgn * (digitsVal 10 decVal ds : ℕ)))
        else none
      else none

/-- Parse a non-decimal radix literal body. -/
def parseRadix (base : ℕ) (pred : Char → Bool) (toVal : Char → ℕ) (ds : List Char) : JSNum :=
  if ds ≠ [] ∧ ds.all pred then .num ((digitsVal base toVal ds : ℕ) : ℚ) else .nan

/-- Model of the JS Number() conversion applied to a string: trim, empty
means 0, "Infinity" with optional sign, 0x/0o/0b radix literals, otherwise
a signed decimal literal; anything else is NaN. -/
def jsNumber (s : String) : JSNum :=
  match jsTrimChars s.data with
  | [] => .num 0
  | '+' :: rest =>
    if rest = "Infinity".data then .inf
    else match parseDecCore rest with
      | some q => .num q
      | none => .nan
  | '-' :: rest =>
    if rest = "Infinity".data then .ninf
    else match parseDecCore rest with
      | some q => .num (-q)
      | none => .nan
  | '0' :: c :: rest =>
    if c = 'x' ∨ c = 'X' then parseRadix 16 isHexCh hexVal rest
    else if c = 'o' ∨ c = 'O' then parseRadix 8 (fun d => '0' ≤ d ∧ d ≤ '7') decVal rest
    else if c = 'b' ∨ c = 'B' then parseRadix 2 (fun d => d = '0' ∨ d = '1') decVal rest
    else match parseDecCore ('0' :: c :: rest) with
      | some q => .num q
      | none => .nan
  | l =>
    if l = "Infinity".data then .inf
    else match parseDecCore l with
      | some q => .num q
      | none => .nan

/-- Model of Number(x) where x is a possibly-missing field: Number(undefined)
is NaN. -/
def jsNumberOpt : Option String → JSNum
  | none => .nan
  | some s => jsNumber s

/-- First character of a possibly-missing string, as in s[0]. -/
def strHead : Option String → Option Char
  | none => none
  | some s => s.data.head?

/-- Model of String.prototype.toLowerCase for the ASCII names that occur. -/
def jsToLower (s : String) : String := String.mk (s.data.map Char.toLower)

/-- The PathType enum from the source. -/
inductive PathType where
  | Catmull : PathType
  | Bezier : PathType
  | Linear : PathType
  | PerfectCurve : PathType
deriving DecidableEq, Repr

/-- Errors a parse step can raise: the one explicit `throw new Error(msg)`
in the source, or a JS runtime TypeError (undefined property access /
calling a string method on a non-string). -/
inductive JSError where
  | thrown (msg : String) : JSError
  | typeError : JSError
deriving DecidableEq, Repr

/-- A value stored in the General map: string, number, undefined (the
result of a failed enum lookup), or a non-primitive value inherited from
Object.prototype (the prototype object reached through the "__proto__"
accessor, or one of the inherited methods); the code never distinguishes
between those inherited values: on the one path that consumes a stored
SampleSet they all fail the reverse lookup identically, so one constructor
represents them. -/
inductive GValue where
  | str (s : String) : GValue
  | num (n : JSNum) : GValue
  | jsUndefined : GValue
  | protoRef : GValue
deriving DecidableEq, Repr

/-- Reverse lookup in the LegacySampleBank numeric enum object: the property
key is the canonical string of the number, so only exactly 0, 1, 2, 3 hit the
reverse-mapping entries; everything else (other rationals, NaN, infinities)
yields undefined. -/
def legacyRevName : JSNum → Option String
  | .num q =>
    if q = 0 then some "None"
    else if q = 1 then some "Normal"
    else if q = 2 then some "Soft"
    else if q = 3 then some "Drum"
    else none
  | _ => none

/-- Model of `LegacySampleBank[n].toLowerCase()` for a numeric index: a
failed reverse lookup yields undefined and the method call throws. -/
def legacyBankRevLower (n : JSNum) : Except JSError String :=
  match legacyRevName n with
  | some s => .ok (jsToLower s)
  | none => .error .typeError

/-- Lookup in the LegacySampleBank enum object by an arbitrary stored
General value, followed by .toLowerCase(): a numeric index goes through the
reverse mapping; a string that is one of the reverse-mapping keys "0".."3"
yields the enum member name (a string, which lowercases fine); a forward
member name yields a number, and calling .toLowerCase() on a number throws;
any other string finds either an inherited non-string (a method of
Object.prototype, or the prototype object itself for "__proto__") or
nothing at all, and .toLowerCase() throws either way.  An inherited
non-primitive value used as the key stringifies to "[object Object]" or to
function source text, neither of which is a property of the enum object, so
it throws the same TypeError; so does undefined. -/
def gvBankRevLower : GValue → Except JSError String
  | .num n => legacyBankRevLower n
  | .str s =>
    if s = "0" then .ok (jsToLower "None")
    else if s = "1" then .ok (jsToLower "Normal")
    else if s = "2" then .ok (jsToLower "Soft")
    else if s = "3" then .ok (jsToLower "Drum")
    else .error .typeError
  | .jsUndefined => .error .typeError
  | .protoRef => .error .typeError

/-- The own property names of Object.prototype; every one of them consists
of word characters only, so each matches the section-header pattern and is
reachable as a section name, and each is found by a property lookup that
misses the object's own keys. -/
def objectProtoNames : List String :=
  [ "__proto__", "constructor", "toString", "toLocaleString", "valueOf"
  , "hasOwnProperty", "isPrototypeOf", "propertyIsEnumerable"
  , "__defineGetter__", "__defineSetter__", "__lookupGetter__", "__lookupSetter__" ]

/-- Forward/reverse lookup in the LegacySampleBank enum object by string
key, used by parseGeneral for the SampleSet special case: the enum object's
own keys are the four member names and the four reverse keys; any other key
continues on Object.prototype, where the twelve names above find a
non-primitive inherited value ("__proto__" reads the accessor and yields
the prototype object, the rest are methods), and everything else is
undefined. -/
def legacyEnumObj (s : String) : GValue :=
  if s = "None" then .num (.num 0)
  else if s = "Normal" then .num (.num 1)
  else if s = "Soft" then .num (.num 2)
  else if s = "Drum" then .num (.num 3)
  else if s = "0" then .str "None"
  else if s = "1" then .str "Normal"
  else if s = "2" then .str "Soft"
  else if s = "3" then .str "Drum"
  else if s ∈ objectProtoNames then .protoRef
  else .jsUndefined

/-- The ISampleBankInfo record. -/
structure SampleBankInfo where
  Filename : Option String := none
  Normal : Option String := none
  Add : Option String := none
  Volume : Option JSNum := none
  CustomSampleBank : Option JSNum := none
deriving DecidableEq, Repr

/-- The ISampleInfo record. -/
structure SampleInfo where
  Filename : Option String := none
  Bank : Option String := none
  Name : Option String := none
  Volume : Option JSNum := none
  CustomSampleBank : Option JSNum := none
deriving DecidableEq, Repr

/-- The ITimingPoint record. -/
structure TimingPoint where
  Time : JSNum
  BeatLength : Option JSNum := none
  TimeSignature : Option JSNum := none
  SpeedMultiplier : JSNum
  KiaiMode : Bool
  OmitFirstBarLine : Bool
  SampleBank : String
  SampleVolume : JSNum
  CustomSampleBank : JSNum
deriving DecidableEq, Repr

/-- A 2D vector of JS numbers. -/
structure Vec2 where
  x : JSNum
  y : JSNum
deriving DecidableEq, Repr

/-- The IHitObject record; fields that the decoder may leave unassigned are
options. -/
structure HitObject where
  Combo : Option Bool := none
  ComboOffset : Option JSNum := none
  Points : Option (List Vec2) := none
  Length : Option JSNum := none
  PathType : Option PathType := none
  RepeatCount : Option JSNum := none
  NodeSamples : Option (List (List SampleInfo)) := none
  Samples : Option (List SampleInfo) := none
  StartTime : Option JSNum := none
  Pos : Option Vec2 := none
deriving DecidableEq, Repr

/-- Embedding of readCustomSampleBanks: splits the token on ":", resolves
bank and addbank through the enum reverse map (a failed lookup throws), and
updates the given bank info in place as the source does: Normal, Add and
Filename are always assigned, CustomSampleBank and Volume only when the
token has enough fields. -/
def readCustomSampleBanksF (line : String) (bankInfo : SampleBankInfo) :
    Except JSError SampleBankInfo :=
  let split := jsSplitTrim line ':'
  let bank := jsNumberOpt (split.get? 0)
  let addbank := jsNumberOpt (split.get? 1)
  match legacyBankRevLower bank with
  | .error e => .error e
  | .ok sb =>
    let stringBank : Option String := if sb = "none" then none else some sb
    match legacyBankRevLower addbank with
    | .error e => .error e
    | .ok sab =>
      let stringAddBank : Option String := if sab = "none" then none else some sab
      let add : Option String :=
        match stringAddBank with
        | some s => if s = "" then stringBank else some s
        | none => none
      .ok { bankInfo with
            Normal := stringBank
            Add := add
            CustomSampleBank :=
              if 2 < split.length then some (jsNumberOpt (split.get? 2))
              else bankInfo.CustomSampleBank
            Volume :=
              if 3 < split.length then some (jsNumberOpt (split.get? 3))
              else bankInfo.Volume
            Filename := if 4 < split.length then split.get? 4 else none }

/-- Truthiness test the source applies to bankInfo.Filename: a present,
non-empty string. -/
def filenamePresent (b : SampleBankInfo) : Bool :=
  match b.Filename with
  | some f => f ≠ ""
  | none => false

/-- The "hitnormal" descriptor built by convertSoundType. -/
def normalDesc (b : SampleBankInfo) : SampleInfo :=
  { Bank := b.Normal, Name := some "hitnormal",
    Volume := b.Volume, CustomSampleBank := b.CustomSampleBank }

/-- The "hitfinish" descriptor built by convertSoundType. -/
def finishDesc (b : SampleBankInfo) : SampleInfo :=
  { Bank := b.Add, Name := some "hitfinish",
    Volume := b.Volume, CustomSampleBank := b.CustomSampleBank }

/-- The "hitwhistle" descriptor built by convertSoundType. -/
def whistleDesc (b : SampleBankInfo) : SampleInfo :=
  { Bank := b.Add, Name := some "hitwhistle",
    Volume := b.Volume, CustomSampleBank := b.CustomSampleBank }

/-- The "hitclap" descriptor built by convertSoundType. -/
def clapDesc (b : SampleBankInfo) : SampleInfo :=
  { Bank := b.Add, Name := some "hitclap",
    Volume := b.Volume, CustomSampleBank := b.CustomSampleBank }

/-- Embedding of convertSoundType: the filename short-circuit, then the
"hitnormal" descriptor, then pushes for the Finish (bit 2), Whistle (bit 1)
and Clap (bit 3) mask bits in that source order. -/
def convertSoundTypeF (t : JSNum) (b : SampleBankInfo) : List SampleInfo :=
  if filenamePresent b then [ { Filename := b.Filename } ]
  else
    let bits := toBits32 t
    let l0 := [normalDesc b]
    let l1 := if Nat.land bits 4 ≠ 0 then l0 ++ [finishDesc b] else l0
    let l2 := if Nat.land bits 2 ≠ 0 then l1 ++ [whistleDesc b] else l1
    if Nat.land bits 8 ≠ 0 then l2 ++ [clapDesc b] else l2

/-- The expansion described by the spec for the no-filename case: one
"hitnormal" descriptor first, then, in the fixed order finish, whistle,
clap, one descriptor per set bit of the mask. -/
def expandSpec (t : JSNum) (b : SampleBankInfo) : List SampleInfo :=
  normalDesc b ::
    ((if (toBits32 t).testBit 2 then [finishDesc b] else []) ++
     (if (toBits32 t).testBit 1 then [whistleDesc b] else []) ++
     (if (toBits32 t).testBit 3 then [clapDesc b] else []))

/-- The SoundTypeExpander as the spec words it: a non-empty filename gives
the single filename descriptor and nothing else is consulted; otherwise the
fixed-order expansion. -/
def convertSoundTypeSpec (t : JSNum) (b : SampleBankInfo) : List SampleInfo :=
  match b.Filename with
  | some f => if f = "" then expandSpec t b else [ { Filename := some f } ]
  | none => expandSpec t b

/-- Embedding of parseTimingPoint, parameterized by the document's current
General SampleSet value; returns none when the record has fewer than 2
fields, an error when the bank reverse lookup throws, and otherwise the
point that the source pushes. -/
def parseTimingPointF (defaultSampleSet : GValue) (line : String) :
    Except JSError (Option TimingPoint) :=
  let split := jsSplitTrim line ','
  if split.length < 2 then .ok none
  else
    let time := jsNumberOpt (split.get? 0)
    let beatLength := jsNumberOpt (split.get? 1)
    let speedMultiplier :=
      if jsLt beatLength (.num 0) then jsDiv (.num 100) (jsNeg beatLength) else .num 1
    let timeSignature :=
      if 3 ≤ split.length then
        (if strHead (split.get? 2) = some '0' then .num 4 else jsNumberOpt (split.get? 2))
      else .num 4
    let sampleSet : GValue :=
      if 4 ≤ split.length then .num (jsNumberOpt (split.get? 3)) else defaultSampleSet
    let customSampleBank :=
      if 5 ≤ split.length then jsNumberOpt (split.get? 4) else .num 0
    let sampleVolume :=
      if 6 ≤ split.length then jsNumberOpt (split.get? 5) else .num 100
    let timingChange : Bool :=
      if 7 ≤ split.length then strHead (split.get? 6) = some '1' else true
    let effectBits :=
      if 8 ≤ split.length then toBits32 (jsNumberOpt (split.get? 7)) else toBits32 (.num 0)
    let kiaiMode : Bool := Nat.land effectBits 1 ≠ 0
    let omitFirstBarSignature : Bool := Nat.land effectBits 8 ≠ 0
    match gvBankRevLower sampleSet with
    | .error e => .error e
    | .ok s0 =>
      let stringSampleSet := if s0 = "none" then "normal" else s0
      let base : TimingPoint :=
        { Time := time, SpeedMultiplier := speedMultiplier, KiaiMode := kiaiMode,
          OmitFirstBarLine := omitFirstBarSignature, SampleBank := stringSampleSet,
          SampleVolume := sampleVolume, CustomSampleBank := customSampleBank }
      if timingChange then
        .ok (some { base with BeatLength := some beatLength,
                              TimeSignature := some timeSignature })
      else .ok (some base)

/-- Raw 32-bit type field of a hit-object record (field 3). -/
def hoTypeRaw (split : List String) : ℕ := toBits32 (jsNumberOpt (split.get? 3))

/-- Type bits after clearing the combo-offset bits 4-6. -/
def hoT1 (split : List String) : ℕ := Nat.land (hoTypeRaw split) (Nat.xor 4294967295 112)

/-- Type bits after additionally clearing the NewCombo bit 2. -/
def hoT2 (split : List String) : ℕ := Nat.land (hoT1 split) (Nat.xor 4294967295 4)

/-- Combo offset extracted from bits 4-6 of the type field. -/
def hoComboOffset (split : List String) : ℕ := Nat.land (hoTypeRaw split) 112 >>> 4

/-- New-combo flag, bit 2 of the type field. -/
def hoCombo (split : List String) : Bool := Nat.land (hoT1 split) 4 ≠ 0

/-- Position of the record, fields 0 and 1. -/
def hoPos (split : List String) : Vec2 :=
  { x := jsNumberOpt (split.get? 0), y := jsNumberOpt (split.get? 1) }

/-- Shared finalization (source lines 396-401): set StartTime from field 2,
and compute Samples from the object-level sound type when the shape did not
already set it (a slider with at least one node did). -/
def hoFinalize (split : List String) (soundType : JSNum) (bankInfo : SampleBankInfo)
    (result : HitObject) : HitObject :=
  let r1 := { result with StartTime := some (jsAdd (jsNumberOpt (split.get? 2)) (.num 0)) }
  match r1.Samples with
  | none => { r1 with Samples := some (convertSoundTypeF soundType bankInfo) }
  | some _ => r1

/-- Circle branch of parseHitObjects. -/
def parseCircleF (split : List String) : Except JSError (Option HitObject) :=
  let soundType := jsNumberOpt (split.get? 4)
  match (if 5 < split.length then readCustomSampleBanksF (split.getD 5 "") {} else .ok {}) with
  | .error e => .error e
  | .ok bankInfo =>
    let result : HitObject :=
      { Pos := some (hoPos split), Combo := some (hoCombo split),
        ComboOffset := some (.num (hoComboOffset split : ℚ)) }
    .ok (some (hoFinalize split soundType bankInfo result))

/-- Path-type letter code of the slider path field. -/
def sliderPathType (s : String) : PathType :=
  if s = "C" then .Catmull
  else if s = "B" then .Bezier
  else if s = "L" then .Linear
  else if s = "P" then .PerfectCurve
  else .Catmull

/-- One slider control point, a colon-delimited x:y token. -/
def parsePoint (t : String) : Vec2 :=
  let temp := jsSplitTrim t ':'
  { x := jsNumberOpt (temp.get? 0), y := jsNumberOpt (temp.get? 1) }

/-- The isLinear test exactly as the source computes it:
abs(0 - (p1.y - p0.y) * (p2.x - p0.x) - (p1.x - p0.x) * (p2.y - p0.y)) <= 0.001,
evaluated only on 3-point lists. -/
def sliderIsLinear (p : List Vec2) : Bool :=
  match p with
  | [p0, p1, p2] =>
    jsLe (jsAbs (jsSub (jsSub (.num 0)
            (jsMul (jsSub p1.y p0.y) (jsSub p2.x p0.x)))
            (jsMul (jsSub p1.x p0.x) (jsSub p2.y p0.y))))
         (.num (1 / 1000))
  | _ => false

/-- Per-node overlay of sample-bank tokens (source lines 339-348): the loop
mutates nodeBankInfos[i] in place via readCustomSampleBanks and stops at the
shorter of the two lists; a decode failure aborts everything. -/
def overlayBanks : List String → List SampleBankInfo →
    Except JSError (List SampleBankInfo)
  | _, [] => .ok []
  | [], infos => .ok infos
  | s :: ss, info :: infos =>
    match readCustomSampleBanksF s info with
    | .error e => .error e
    | .ok info2 =>
      match overlayBanks ss infos with
      | .error e => .error e
      | .ok rest => .ok (info2 :: rest)

/-- Per-node overlay of sound-type tokens (source lines 357-367): each token
is parsed numerically, NaN becomes 0, and the loop stops at the shorter
list. -/
def overlaySounds : List String → List JSNum → List JSNum
  | _, [] => []
  | [], sts => sts
  | a :: ss, _ :: sts =>
    (if jsNumber a = .nan then .num 0 else jsNumber a) :: overlaySounds ss sts

/-- Control points of the slider path field: every pipe token after the
first, parsed as x:y. -/
def sliderPoints (f5 : String) : List Vec2 :=
  ((jsSplitTrim f5 '|').drop 1).map parsePoint

/-- Path type of the slider after the degenerate-curve correction of the
source: exactly 3 control points requested as PerfectCurve that pass the
isLinear test become Linear. -/
def sliderFinalPathType (f5 : String) : PathType :=
  let pathType0 := sliderPathType ((jsSplitTrim f5 '|').headD "")
  let points := sliderPoints f5
  if points.length = 3 ∧ pathType0 = PathType.PerfectCurve ∧ sliderIsLinear points
  then PathType.Linear else pathType0

/-- Slider length, field 7 with default 0. -/
def sliderLen (split : List String) : JSNum :=
  if 7 < split.length then jsNumberOpt (split.get? 7) else .num 0

/-- The object-level bank info of a slider, decoded from the trailing
field 10 token when present. -/
def sliderBankRead (split : List String) : Except JSError SampleBankInfo :=
  if 10 < split.length then readCustomSampleBanksF (split.getD 10 "") {} else .ok {}

/-- The per-node bank infos: n copies of the default, overlaid with the
pipe-delimited field 9 tokens when that field is present and non-empty. -/
def sliderOverlayBanks (split : List String) (n : ℕ) (bankInfo : SampleBankInfo) :
    Except JSError (List SampleBankInfo) :=
  if 9 < split.length ∧ (split.getD 9 "") ≠ "" then
    overlayBanks (jsSplitTrim (split.getD 9 "") '|') (List.replicate n bankInfo)
  else .ok (List.replicate n bankInfo)

/-- The per-node sound types: n copies of the object sound type, overlaid
with the pipe-delimited field 8 tokens when present and non-empty. -/
def sliderSounds (split : List String) (n : ℕ) (soundType : JSNum) : List JSNum :=
  if 8 < split.length ∧ (split.getD 8 "") ≠ "" then
    overlaySounds (jsSplitTrim (split.getD 8 "") '|') (List.replicate n soundType)
  else List.replicate n soundType

/-- Slider branch of parseHitObjects: path parsing with the degenerate
perfect-curve correction, the repeat-count overflow throw, the clamp, and
the per-node bank/sound expansion (the pure path computations of the source
are hoisted into the helpers above; they occur before the throw in the
source but have no effects, so the emitted record and the raised error are
unchanged). -/
def parseSliderF (split : List String) : Except JSError (Option HitObject) :=
  match split.get? 5 with
  | none => .error .typeError
  | some f5 =>
    let raw := jsNumberOpt (split.get? 6)
    if jsGt raw (.num 9000) then .error (.thrown "Repeat count is way too high")
    else
      let repeatCount := jsMax (.num 0) (jsSub raw (.num 1))
      match sliderBankRead split with
      | .error e => .error e
      | .ok bankInfo =>
        let n := jsLoopCount (jsAdd repeatCount (.num 2))
        match sliderOverlayBanks split n bankInfo with
        | .error e => .error e
        | .ok nodeBankInfos2 =>
          let soundType := jsNumberOpt (split.get? 4)
          let nodeSamples :=
            List.zipWith convertSoundTypeF (sliderSounds split n soundType) nodeBankInfos2
          let result : HitObject :=
            { Pos := some (hoPos split), Combo := some (hoCombo split),
              ComboOffset := some (.num (hoComboOffset split : ℚ)),
              Points := some (sliderPoints f5), Length := some (sliderLen split),
              PathType := some (sliderFinalPathType f5),
              RepeatCount := some repeatCount, NodeSamples := some nodeSamples,
              Samples := nodeSamples.getLast? }
          .ok (some (hoFinalize split soundType bankInfo result))

/-- Embedding of parseHitObjects: splits the record, dispatches on the
shape bit that survives the combo-bit clearing; spinner and hold leave the
result object empty, which the source detects and drops. -/
def parseHitObjectsF (line : String) : Except JSError (Option HitObject) :=
  let split := jsSplitTrim line ','
  if Nat.land (hoT2 split) 1 ≠ 0 then parseCircleF split
  else if Nat.land (hoT2 split) 2 ≠ 0 then parseSliderF split
  else .ok none

/-- Update of an own property of a JS object modelled as an association
list: an existing key keeps its position, a new key is appended. -/
def objSetOwn {α : Type} : List (String × α) → String → α → List (String × α)
  | [], k, v => [(k, v)]
  | (k', v') :: rest, k, v =>
    if k' = k then (k, v) :: rest else (k', v') :: objSetOwn rest k v

/-- A JS property assignment obj[key] = value on an object literal: every
key creates or updates an own property, except "__proto__", which invokes
the inherited Annex-B accessor setter; the values stored by this program
are primitives, for which that setter changes nothing and creates no own
property, so the assignment is a complete no-op. -/
def objSet {α : Type} (l : List (String × α)) (k : String) (v : α) :
    List (String × α) :=
  if k = "__proto__" then l else objSetOwn l k v

/-- Read a property of a JS object modelled as an association list, with a
default for a missing key; the program only ever reads the "SampleSet" key
of the general object, which the constructor creates and no write can
remove, so the prototype chain is never consulted on this path. -/
def objGetD {α : Type} (l : List (String × α)) (k : String) (d : α) : α :=
  match l.lookup k with
  | some v => v
  | none => d

/-- The document accumulator: the OsuParser instance state. -/
structure Doc where
  currentSection : String
  general : List (String × GValue)
  difficulty : List (String × JSNum)
  timingPoints : List TimingPoint
  hitObjects : List HitObject
deriving DecidableEq, Repr

/-- The state the OsuParser constructor builds. -/
def initialDoc : Doc :=
  { currentSection := ""
    general :=
      [ ("AudioFilename", .str "")
      , ("AudioLeadIn", .num (.num 0))
      , ("Countdown", .num (.num 0))
      , ("LetterboxInBreaks", .num (.num 0))
      , ("Mode", .num (.num 0))
      , ("PreviewTime", .num (.num 0))
      , ("SampleSet", .num (.num 0))
      , ("StackLeniency", .num (.num 0))
      , ("WidescreenStoryboard", .num (.num 0)) ]
    difficulty :=
      [ ("ApproachRate", .num 0)
      , ("CircleSize", .num 0)
      , ("HPDrainRate", .num 0)
      , ("OverallDifficulty", .num 0) ]
    timingPoints := []
    hitObjects := [] }

/-- Embedding of parseGeneral: a line splits on ":" with trimming; exactly
two parts store a value, SampleSet going through the enum object. -/
def parseGeneralF (general : List (String × GValue)) (line : String) :
    List (String × GValue) :=
  let split := jsSplitTrim line ':'
  if split.length = 2 then
    let key := split.headD ""
    let value := (split.get? 1).getD ""
    let n := jsNumber value
    if key = "SampleSet" then objSet general key (legacyEnumObj value)
    else objSet general key (if n = .nan then .str value else .num n)
  else general

/-- Embedding of parseDifficulty: exactly two trimmed parts store
Number(value) under the key. -/
def parseDifficultyF (difficulty : List (String × JSNum)) (line : String) :
    List (String × JSNum) :=
  let split := jsSplitTrim line ':'
  if split.length = 2 then
    objSet difficulty (split.headD "") (jsNumber ((split.get? 1).getD ""))
  else difficulty

/-- JS word character, the regex character class [\w\d]. -/
def isWordCh (c : Char) : Bool := c.isAlphanum ∨ c = '_'

/-- First match of the unanchored regex \[([\w\d]+)\] over the line, the
captured token: scan for a "[", take the maximal word run after it, and
require a "]" right after a non-empty run (since "]" is not a word
character, greedy matching needs no backtracking). -/
def findSection : List Char → Option String
  | [] => none
  | c :: cs =>
    if c = '[' then
      let w := cs.takeWhile isWordCh
      match cs.drop w.length with
      | ']' :: _ => if w.isEmpty then findSection cs else some (String.mk w)
      | _ => findSection cs
    else findSection cs

/-- Embedding of parseSection: on a regex match the current section becomes
the captured token, otherwise nothing changes. -/
def parseSectionF (doc : Doc) (line : String) : Doc :=
  match findSection line.data with
  | some t => { doc with currentSection := t }
  | none => doc

/-- Outcome of the call parser(line) when currentSection misses the four
own keys of the parsers literal and the lookup continues on
Object.prototype (the source is an ES module, hence strict mode code, so
the this value inside an inherited method called this way is undefined):
"__proto__" reads the accessor and yields the non-callable prototype
object, so the call itself throws; toLocaleString, valueOf, hasOwnProperty,
propertyIsEnumerable, __defineGetter__, __defineSetter__, __lookupGetter__
and __lookupSetter__ coerce their this value with ToObject(undefined) and
throw a TypeError; toString (returns "[object Undefined]"), constructor
(the Object function) and isPrototypeOf (returns false on a non-object
argument) return normally with a discarded result, like the () => null
no-op that replaces an undefined lookup; none of them touch the document. -/
def protoChainThrows (s : String) : Bool :=
  s = "__proto__" ∨ s = "toLocaleString" ∨ s = "valueOf" ∨ s = "hasOwnProperty" ∨
  s = "propertyIsEnumerable" ∨ s = "__defineGetter__" ∨ s = "__defineSetter__" ∨
  s = "__lookupGetter__" ∨ s = "__lookupSetter__"

/-- Embedding of parseLine: the object lookup parsers[currentSection]
reaches one of the four registered decoders through the literal's own keys;
any other name continues on Object.prototype, where the inherited values
behave as protoChainThrows describes, and a name found nowhere yields
undefined, replaced by the () => null no-op. -/
def parseLineF (doc : Doc) (line : String) : Except JSError Doc :=
  if doc.currentSection = "General" then
    .ok { doc with general := parseGeneralF doc.general line }
  else if doc.currentSection = "Difficulty" then
    .ok { doc with difficulty := parseDifficultyF doc.difficulty line }
  else if doc.currentSection = "TimingPoints" then
    match parseTimingPointF (objGetD doc.general "SampleSet" .jsUndefined) line with
    | .error e => .error e
    | .ok none => .ok doc
    | .ok (some tp) => .ok { doc with timingPoints := doc.timingPoints ++ [tp] }
  else if doc.currentSection = "HitObjects" then
    match parseHitObjectsF line with
    | .error e => .error e
    | .ok none => .ok doc
    | .ok (some ho) => .ok { doc with hitObjects := doc.hitObjects ++ [ho] }
  else if protoChainThrows doc.currentSection then .error .typeError
  else .ok doc

/-- Embedding of OsuParser.parse: a line starting with "[" goes to
parseSection, everything else to parseLine. -/
def OsuParser.parse (doc : Doc) (line : String) : Except JSError Doc :=
  if line.data.head? = some '[' then .ok (parseSectionF doc line)
  else parseLineF doc line

/-! Helper lemmas shared by the claim theorems. -/

/-- A bitwise and with a single-bit mask is nonzero exactly when that bit is
set. -/
lemma land_two_pow_ne_zero (n i : ℕ) : (Nat.land n (2 ^ i) ≠ 0) ↔ n.testBit i := by
  have h : Nat.land n (2 ^ i) = n &&& 2 ^ i := rfl
  rw [h, Nat.and_two_pow]
  cases hb : n.testBit i <;> simp [hb, (pow_ne_zero i (by norm_num : (2 : ℕ) ≠ 0))]

/-- The bank reverse lookup only ever produces the four lowercase names. -/
lemma legacyBankRevLower_mem (n : JSNum) (s : String)
    (h : legacyBankRevLower n = .ok s) :
    s = "none" ∨ s = "normal" ∨ s = "soft" ∨ s = "drum" := by
  unfold legacyBankRevLower legacyRevName at h
  rcases n with _ | _ | _ | q
  · simp at h
  · simp at h
  · simp at h
  · by_cases h0 : q = 0
    · simp [h0] at h; left; rw [← h]; rfl
    by_cases h1 : q = 1
    · simp [h0, h1] at h; right; left; rw [← h]; rfl
    by_cases h2 : q = 2
    · simp [h0, h1, h2] at h; right; right; left; rw [← h]; rfl
    by_cases h3 : q = 3
    · simp [h0, h1, h2, h3] at h; right; right; right; rw [← h]; rfl
    · simp [h0, h1, h2, h3] at h

/-- The overlay of per-node bank tokens never changes the node count. -/
lemma overlayBanks_length (ss : List String) (l l2 : List SampleBankInfo)
    (h : overlayBanks ss l = .ok l2) : l2.length = l.length := by
  induction ss generalizing l l2 with
  | nil =>
    cases l with
    | nil => simp [overlayBanks] at h; simp [← h]
    | cons a as => simp [overlayBanks] at h; simp [← h]
  | cons s ss ih =>
    cases l with
    | nil => simp [overlayBanks] at h; simp [← h]
    | cons a as =>
      unfold overlayBanks at h
      cases hr : readCustomSampleBanksF s a with
      | error e => rw [hr] at h; cases h
      | ok info2 =>
        rw [hr] at h
        cases ho : overlayBanks ss as with
        | error e => rw [ho] at h; cases h
        | ok rest =>
          rw [ho] at h
          cases h
          simp [ih as rest ho]

/-- Beyond the token count, the overlay leaves the node infos untouched. -/
lemma overlayBanks_get_ge (ss : List String) (l l2 : List SampleBankInfo)
    (h : overlayBanks ss l = .ok l2) (i : ℕ) (hi : ss.length ≤ i) :
    l2.get? i = l.get? i := by
  induction ss generalizing l l2 i with
  | nil =>
    cases l with
    | nil => simp [overlayBanks] at h; simp [← h]
    | cons a as => simp [overlayBanks] at h; simp [← h]
  | cons s ss ih =>
    cases l with
    | nil => simp [overlayBanks] at h; simp [← h]
    | cons a as =>
      unfold overlayBanks at h
      cases hr : readCustomSampleBanksF s a with
      | error e => rw [hr] at h; cases h
      | ok info2 =>
        rw [hr] at h
        cases ho : overlayBanks ss as with
        | error e => rw [ho] at h; cases h
        | ok rest =>
          rw [ho] at h
          cases h
          cases i with
          | zero => simp at hi
          | succ j =>
            simp only [List.get?_cons_succ]
            exact ih as rest ho j (by simpa using hi)

/-- The overlay of per-node sound tokens never changes the node count. -/
lemma overlaySounds_length (ss : List String) (l : List JSNum) :
    (overlaySounds ss l).length = l.length := by
  induction ss generalizing l with
  | nil => cases l <;> simp [overlaySounds]
  | cons s ss ih =>
    cases l with
    | nil => simp [overlaySounds]
    | cons a as => simp [overlaySounds, ih as]

/-- Finalization does not touch the RepeatCount field. -/
lemma hoFinalize_RepeatCount (split : List String) (t : JSNum) (b : SampleBankInfo)
    (r : HitObject) : (hoFinalize split t b r).RepeatCount = r.RepeatCount := by
  unfold hoFinalize
  cases r.Samples <;> rfl

/-- Finalization does not touch the NodeSamples field. -/
lemma hoFinalize_NodeSamples (split : List String) (t : JSNum) (b : SampleBankInfo)
    (r : HitObject) : (hoFinalize split t b r).NodeSamples = r.NodeSamples := by
  unfold hoFinalize
  cases r.Samples <;> rfl

/-- Finalization does not touch the PathType field. -/
lemma hoFinalize_PathType (split : List String) (t : JSNum) (b : SampleBankInfo)
    (r : HitObject) : (hoFinalize split t b r).PathType = r.PathType := by
  unfold hoFinalize
  cases r.Samples <;> rfl

/-- Finalization does not touch the Points field. -/
lemma hoFinalize_Points (split : List String) (t : JSNum) (b : SampleBankInfo)
    (r : HitObject) : (hoFinalize split t b r).Points = r.Points := by
  unfold hoFinalize
  cases r.Samples <;> rfl

/-- Finalization keeps an already-present Samples value. -/
lemma hoFinalize_Samples (split : List String) (t : JSNum) (b : SampleBankInfo)
    (r : HitObject) (l : List SampleInfo) (h : r.Samples = some l) :
    (hoFinalize split t b r).Samples = some l := by
  unfold hoFinalize
  rw [show ({ r with StartTime := some (jsAdd (jsNumberOpt (split.get? 2)) (.num 0)) } : HitObject).Samples = r.Samples from rfl, h]

/-- Collinearity of three control points as the spec words it: the
cross-product magnitude of the two edge vectors is at most 0.001. -/
def collinearSpec (p0 p1 p2 : Vec2) : Bool :=
  jsLe (jsAbs (jsSub (jsMul (jsSub p1.y p0.y) (jsSub p2.x p0.x))
                     (jsMul (jsSub p1.x p0.x) (jsSub p2.y p0.y))))
       (.num (1 / 1000))

/-- C1: the slider record with the three collinear control points (0,0),
(1,1), (2,2) requested as PerfectCurve is NOT downgraded: the emitted
object's PathType stays PerfectCurve, although the points are collinear in
the spec's sense.  The source computes abs(0 - A - B) = abs(A + B) instead
of the cross product abs(A - B), so the downgrade never fires here. -/
theorem C1_collinearPerfectCurveKept :
    collinearSpec { x := .num 0, y := .num 0 } { x := .num 1, y := .num 1 }
        { x := .num 2, y := .num 2 } = true ∧
    (match parseHitObjectsF "0,0,1000,2,0,P|0:0|1:1|2:2,1,100" with
     | .ok (some o) => o.PathType
     | _ => none) = some PathType.PerfectCurve ∧
    (match parseHitObjectsF "0,0,1000,2,0,P|0:0|1:1|2:2,1,100" with
     | .ok (some o) => o.Points
     | _ => none) =
      some [ { x := .num 0, y := .num 0 }, { x := .num 1, y := .num 1 },
             { x := .num 2, y := .num 2 } ] := by
  refine ⟨by decide!, by decide!, by decide!⟩

/-- C5: the SoundTypeExpander of the source coincides with the ordering
description of the spec: a present non-empty filename short-circuits to the
single filename descriptor, and otherwise the expansion is the "hitnormal"
descriptor followed, in the fixed order finish, whistle, clap, by one
add-bank descriptor per set bit. -/
theorem C5_soundTypeExpansion (t : JSNum) (b : SampleBankInfo) :
    convertSoundTypeF t b = convertSoundTypeSpec t b := by
  have e4 := land_two_pow_ne_zero (toBits32 t) 2
  have e2 := land_two_pow_ne_zero (toBits32 t) 1
  have e8 := land_two_pow_ne_zero (toBits32 t) 3
  norm_num at e4 e2 e8
  unfold convertSoundTypeF convertSoundTypeSpec filenamePresent expandSpec
  cases hf : b.Filename with
  | none =>
    simp only [ne_eq, e4, e2, e8]
    by_cases b2 : (toBits32 t).testBit 2 <;> by_cases b1 : (toBits32 t).testBit 1 <;>
      by_cases b3 : (toBits32 t).testBit 3 <;> simp [b2, b1, b3]
  | some f =>
    by_cases hfe : f = ""
    · subst hfe
      simp only [ne_eq, e4, e2, e8, decide_not]
      by_cases b2 : (toBits32 t).testBit 2 <;> by_cases b1 : (toBits32 t).testBit 1 <;>
        by_cases b3 : (toBits32 t).testBit 3 <;> simp [b2, b1, b3]
    · simp [hfe, hf]

/-- Decidable equality for Except results, used to evaluate concrete parse
outcomes in witnesses. -/
instance {e a : Type} [DecidableEq e] [DecidableEq a] : DecidableEq (Except e a)
  | .error x, .error y =>
    if h : x = y then .isTrue (by rw [h])
    else .isFalse (by intro hc; cases hc; exact h rfl)
  | .error _, .ok _ => .isFalse (by intro hc; cases hc)
  | .ok _, .error _ => .isFalse (by intro hc; cases hc)
  | .ok x, .ok y =>
    if h : x = y then .isTrue (by rw [h])
    else .isFalse (by intro hc; cases hc; exact h rfl)

/-- The timingChange flag as the spec words it: default true; when field 6
is present, true exactly when its first character is "1". -/
def timingChangeOf (line : String) : Bool :=
  match (jsSplitTrim line ',').get? 6 with
  | some f => f.data.head? == some '1'
  | none => true

/-- The spec-shaped timingChange flag coincides with the expression the
decoder computes. -/
lemma timingChangeOf_eq (line : String) :
    timingChangeOf line =
      (if 7 ≤ (jsSplitTrim line ',').length
       then decide (strHead ((jsSplitTrim line ',').get? 6) = some '1') else true) := by
  unfold timingChangeOf
  by_cases h7 : 7 ≤ (jsSplitTrim line ',').length
  · have h6 : 6 < (jsSplitTrim line ',').length := by omega
    rw [List.get?_eq_get h6]
    simp only [h7, if_true, strHead]
    exact Bool.beq_eq_decide_eq _ _
  · have h6 : (jsSplitTrim line ',').get? 6 = none :=
      List.get?_eq_none.2 (by omega)
    rw [h6]
    simp [h7]

/-- C3: whenever a timing-point record is decoded into an emitted point, the
point carries BeatLength exactly when timingChange is true and carries
TimeSignature exactly when timingChange is true, where timingChange defaults
to true and, when field 6 is present, is true exactly when that field's
first character is "1". -/
theorem C3_timingChangeGatesOptionalFields (ds : GValue) (line : String)
    (tp : TimingPoint) (h : parseTimingPointF ds line = .ok (some tp)) :
    tp.BeatLength.isSome = timingChangeOf line ∧
    tp.TimeSignature.isSome = timingChangeOf line := by
  rw [timingChangeOf_eq]
  simp only [parseTimingPointF] at h
  split at h
  · exact absurd h (by simp)
  next h2 =>
    split at h
    next => cases h
    next s0 hlk =>
      split at h
      next htc =>
        rw [if_pos htc]
        by_cases hd : strHead ((jsSplitTrim line ',')[6]?) = some '1'
        · rw [if_pos (by simp [hd])] at h
          rw [Except.ok.injEq, Option.some.injEq] at h
          rw [← h]
          simp [hd]
        · rw [if_neg (by simp [hd])] at h
          rw [Except.ok.injEq, Option.some.injEq] at h
          rw [← h]
          simp [hd]
      next htc =>
        rw [if_neg htc]
        rw [if_pos rfl] at h
        rw [Except.ok.injEq, Option.some.injEq] at h
        rw [← h]
        exact ⟨rfl, rfl⟩

/-- C3 witness: the two-field record "0,200" with default sample set 0 emits
a point with both optional fields present and timingChange true. -/
theorem C3_timingChangeGatesOptionalFields_witness :
    parseTimingPointF (.num (.num 0)) "0,200" =
      .ok (some { Time := .num 0, BeatLength := some (.num 200),
                  TimeSignature := some (.num 4), SpeedMultiplier := .num 1,
                  KiaiMode := false, OmitFirstBarLine := false,
                  SampleBank := "normal", SampleVolume := .num 100,
                  CustomSampleBank := .num 0 }) ∧
    ({ Time := .num 0, BeatLength := some (.num 200),
       TimeSignature := some (.num 4), SpeedMultiplier := .num 1,
       KiaiMode := false, OmitFirstBarLine := false,
       SampleBank := "normal", SampleVolume := .num 100,
       CustomSampleBank := .num 0 } : TimingPoint).BeatLength.isSome =
      timingChangeOf "0,200" ∧
    ({ Time := .num 0, BeatLength := some (.num 200),
       TimeSignature := some (.num 4), SpeedMultiplier := .num 1,
       KiaiMode := false, OmitFirstBarLine := false,
       SampleBank := "normal", SampleVolume := .num 100,
       CustomSampleBank := .num 0 } : TimingPoint).TimeSignature.isSome =
      timingChangeOf "0,200" := by
  have h : parseTimingPointF (.num (.num 0)) "0,200" =
      .ok (some { Time := .num 0, BeatLength := some (.num 200),
                  TimeSignature := some (.num 4), SpeedMultiplier := .num 1,
                  KiaiMode := false, OmitFirstBarLine := false,
                  SampleBank := "normal", SampleVolume := .num 100,
                  CustomSampleBank := .num 0 }) := by decide!
  have h2 := C3_timingChangeGatesOptionalFields (.num (.num 0)) "0,200" _ h
  exact ⟨h, h2.1, h2.2⟩

/-- C10: a line routed to the General or Difficulty decoder whose
colon-split does not have exactly two parts stores nothing and leaves the
document unchanged. -/
theorem C10_twoPartSplitRequired (doc : Doc) (line : String)
    (hsec : doc.currentSection = "General" ∨ doc.currentSection = "Difficulty")
    (hnb : line.data.head? ≠ some '[')
    (hsplit : (jsSplitTrim line ':').length ≠ 2) :
    OsuParser.parse doc line = .ok doc := by
  unfold OsuParser.parse
  rw [if_neg hnb]
  unfold parseLineF
  rcases hsec with hg | hd
  · rw [if_pos hg]
    unfold parseGeneralF
    rw [if_neg hsplit]
  · have hng : ¬doc.currentSection = "General" := by rw [hd]; decide
    rw [if_neg hng, if_pos hd]
    unfold parseDifficultyF
    rw [if_neg hsplit]

/-- C10 witness: a colon-free line in the General section leaves the initial
document (with section set to General) unchanged. -/
theorem C10_twoPartSplitRequired_witness :
    (({ initialDoc with currentSection := "General" } : Doc).currentSection = "General" ∨
     ({ initialDoc with currentSection := "General" } : Doc).currentSection = "Difficulty") ∧
    ("no colon here" : String).data.head? ≠ some '[' ∧
    (jsSplitTrim "no colon here" ':').length ≠ 2 ∧
    OsuParser.parse { initialDoc with currentSection := "General" } "no colon here" =
      .ok { initialDoc with currentSection := "General" } :=
  ⟨Or.inl rfl, by decide, by decide,
   C10_twoPartSplitRequired { initialDoc with currentSection := "General" }
     "no colon here" (Or.inl rfl) (by decide) (by decide)⟩

/-- C9 counterexample: the timing-point record "0,200,4,9" carries legacy
bank index 9, outside {0,1,2,3}; decoding raises a TypeError instead of
producing a degraded record. -/
theorem C9_unknownBankIndex_counterexample :
    parseTimingPointF (.num (.num 0)) "0,200,4,9" = .error .typeError := by
  decide!

/-- C9 amended: a legacy bank index outside {0,1,2,3} in timing-point
field 3, or in the bank field of a sample-bank token, makes the enum
reverse lookup yield undefined and the subsequent toLowerCase call raise a
TypeError, aborting the decode of the whole run; so the repeat-count
overflow is not the only user-visible failure. -/
theorem C9_unknownBankIndexRaises :
    (∀ (line : String) (ds : GValue) (q : ℚ),
      2 ≤ (jsSplitTrim line ',').length →
      4 ≤ (jsSplitTrim line ',').length →
      jsNumberOpt ((jsSplitTrim line ',').get? 3) = .num q →
      q ≠ 0 → q ≠ 1 → q ≠ 2 → q ≠ 3 →
      parseTimingPointF ds line = .error .typeError) ∧
    (∀ (token : String) (info : SampleBankInfo) (q : ℚ),
      jsNumberOpt ((jsSplitTrim token ':').get? 0) = .num q →
      q ≠ 0 → q ≠ 1 → q ≠ 2 → q ≠ 3 →
      readCustomSampleBanksF token info = .error .typeError) := by
  constructor
  · intro line ds q hl2 hl4 hq h0 h1 h2 h3
    simp only [parseTimingPointF]
    rw [if_neg (by omega)]
    rw [if_pos hl4, hq]
    rw [show gvBankRevLower (GValue.num (JSNum.num q)) = Except.error JSError.typeError from by
      simp [gvBankRevLower, legacyBankRevLower, legacyRevName, h0, h1, h2, h3]]
  · intro token info q hq h0 h1 h2 h3
    simp only [readCustomSampleBanksF]
    rw [hq]
    rw [show legacyBankRevLower (JSNum.num q) = Except.error JSError.typeError from by
      simp [legacyBankRevLower, legacyRevName, h0, h1, h2, h3]]

/-- C9 witness: bank index 7 in timing-point field 3 and in a sample-bank
token both raise the TypeError, through the amended theorem. -/
theorem C9_unknownBankIndexRaises_witness :
    parseTimingPointF (.num (.num 0)) "0,200,4,7" = .error .typeError ∧
    readCustomSampleBanksF "7:0" {} = .error .typeError :=
  ⟨C9_unknownBankIndexRaises.1 "0,200,4,7" (.num (.num 0)) 7 (by decide) (by decide)
     (by decide!) (by decide!) (by decide!) (by decide!) (by decide!),
   C9_unknownBankIndexRaises.2 "7:0" {} 7 (by decide!)
     (by decide!) (by decide!) (by decide!) (by decide!)⟩

/-- C6 counterexample: for the token "2:" the bank resolves to "soft" and
the addbank token is empty, yet the resolver leaves Add absent rather than
falling back to the bank name. -/
theorem C6_emptyAddbank_counterexample :
    readCustomSampleBanksF "2:" {} =
      .ok { Filename := none, Normal := some "soft", Add := none,
            Volume := none, CustomSampleBank := none } ∧
    ({ Filename := none, Normal := some "soft", Add := none,
       Volume := none, CustomSampleBank := none } : SampleBankInfo).Add ≠
      some "soft" := by
  exact ⟨by decide!, by decide⟩

/-- The Add value the resolver actually computes: the resolved addbank name
with "none" mapped to absent, never falling back to the bank name (an empty
addbank token parses to 0, whose resolved name is "none"). -/
def addFromLookup (token : String) : Option String :=
  match legacyBankRevLower (jsNumberOpt ((jsSplitTrim token ':').get? 1)) with
  | .ok s => if s = "none" then none else some s
  | .error _ => none

/-- C6 amended: whenever the resolver succeeds, the Add bank equals the
resolved addbank name with "none" as absent; in particular an empty addbank
token yields an absent Add, because Number("") is 0 and 0 resolves to
"none" (the source's fallback branch for an empty resolved string is
unreachable, as resolved names are never empty). -/
theorem C6_emptyAddbankResolvesAbsent (token : String) (info out : SampleBankInfo)
    (h : readCustomSampleBanksF token info = .ok out) :
    out.Add = addFromLookup token ∧
    ((jsSplitTrim token ':').get? 1 = some "" → out.Add = none) := by
  have h1 : out.Add = addFromLookup token := by
    simp only [readCustomSampleBanksF] at h
    split at h
    next => cases h
    next sb hsb =>
      split at h
      next => cases h
      next sab hsab =>
        rw [Except.ok.injEq] at h
        subst h
        unfold addFromLookup
        rw [hsab]
        by_cases hn : sab = "none"
        · simp [hn]
        · have hmem := legacyBankRevLower_mem _ _ hsab
          have hne : sab ≠ "" := by rcases hmem with rfl | rfl | rfl | rfl <;> decide
          simp [hn, hne]
  refine ⟨h1, fun he => ?_⟩
  rw [h1]
  unfold addFromLookup
  rw [he]
  rw [show jsNumberOpt (some "") = JSNum.num 0 from by decide!]
  rw [show legacyBankRevLower (JSNum.num 0) = Except.ok "none" from by decide!]
  simp

/-- C6 witness: the amended theorem applied to the token "2:", whose addbank
field is empty and whose resulting Add is absent. -/
theorem C6_emptyAddbankResolvesAbsent_witness :
    readCustomSampleBanksF "2:" {} =
      .ok { Filename := none, Normal := some "soft", Add := none,
            Volume := none, CustomSampleBank := none } ∧
    ({ Filename := none, Normal := some "soft", Add := none,
       Volume := none, CustomSampleBank := none } : SampleBankInfo).Add =
      addFromLookup "2:" ∧
    addFromLookup "2:" = none :=
  have h : readCustomSampleBanksF "2:" {} =
      .ok { Filename := none, Normal := some "soft", Add := none,
            Volume := none, CustomSampleBank := none } := by decide!
  ⟨h, (C6_emptyAddbankResolvesAbsent "2:" {} _ h).1, by decide!⟩

/-- C2 counterexample: the parser also raises failures other than the
repeat-count overflow: routing the timing-point record "0,200,4,5" (legacy
bank index 5) raises a TypeError, which is not the MalformedRecord-class
thrown error. -/
theorem C2_repeatOverflow_counterexample :
    OsuParser.parse { initialDoc with currentSection := "TimingPoints" }
      "0,200,4,5" = .error .typeError ∧
    JSError.typeError ≠ JSError.thrown "Repeat count is way too high" := by
  exact ⟨by decide!, by decide⟩

/-- C2 amended: for a record dispatched to the slider branch whose path
field is present, a raw repeat field exceeding 9000 aborts the record with
the thrown "Repeat count is way too high" error (the only explicitly thrown
error in the source, though TypeErrors can also abort on other malformed
input); and any emitted slider has RepeatCount = max(0, raw - 1), the raw
value not having exceeded 9000. -/
theorem C2_repeatOverflowAndClamp :
    (∀ line : String,
      Nat.land (hoT2 (jsSplitTrim line ',')) 1 = 0 →
      Nat.land (hoT2 (jsSplitTrim line ',')) 2 ≠ 0 →
      5 < (jsSplitTrim line ',').length →
      jsGt (jsNumberOpt ((jsSplitTrim line ',').get? 6)) (.num 9000) = true →
      parseHitObjectsF line = .error (.thrown "Repeat count is way too high")) ∧
    (∀ (line : String) (obj : HitObject),
      parseHitObjectsF line = .ok (some obj) →
      Nat.land (hoT2 (jsSplitTrim line ',')) 1 = 0 →
      Nat.land (hoT2 (jsSplitTrim line ',')) 2 ≠ 0 →
      obj.RepeatCount =
        some (jsMax (.num 0) (jsSub (jsNumberOpt ((jsSplitTrim line ',').get? 6)) (.num 1))) ∧
      jsGt (jsNumberOpt ((jsSplitTrim line ',').get? 6)) (.num 9000) = false) := by
  constructor
  · intro line hc hs h5 hgt
    simp only [parseHitObjectsF]
    rw [if_neg (by simp [hc]), if_pos hs]
    simp only [parseSliderF]
    split
    next heq => rw [List.get?_eq_none] at heq; omega
    next f5 heq => rw [if_pos hgt]
  · intro line obj h hc hs
    simp only [parseHitObjectsF] at h
    rw [if_neg (by simp [hc]), if_pos hs] at h
    simp only [parseSliderF] at h
    split at h
    next => cases h
    next f5 hg5 =>
      cases hgt : jsGt (jsNumberOpt ((jsSplitTrim line ',').get? 6)) (JSNum.num 9000) with
      | true => rw [if_pos hgt] at h; cases h
      | false =>
        rw [if_neg (by rw [hgt]; exact Bool.false_ne_true)] at h
        refine And.intro ?_ rfl
        split at h
        next => cases h
        next bankInfo hbi =>
          split at h
          next => cases h
          next nodeBankInfos2 hov =>
            rw [Except.ok.injEq, Option.some.injEq] at h
            rw [← h, hoFinalize_RepeatCount]

/-- The slider that the record "0,0,1000,2,0,L|0:0|1:1,3,100" decodes to. -/
def c2WitnessObj : HitObject :=
  { Combo := some false
    ComboOffset := some (.num 0)
    Points := some [ { x := .num 0, y := .num 0 }, { x := .num 1, y := .num 1 } ]
    Length := some (.num 100)
    PathType := some PathType.Linear
    RepeatCount := some (.num 2)
    NodeSamples := some (List.replicate 4
      [ { Bank := none, Name := some "hitnormal", Volume := none, CustomSampleBank := none } ])
    Samples := some
      [ { Bank := none, Name := some "hitnormal", Volume := none, CustomSampleBank := none } ]
    StartTime := some (.num 1000)
    Pos := some { x := .num 0, y := .num 0 } }

/-- C2 witness: a slider record with raw repeat 9001 aborts with the thrown
error, and the emitted slider of a record with raw repeat 3 stores
RepeatCount max(0, 3 - 1) = 2, through the amended theorem. -/
theorem C2_repeatOverflowAndClamp_witness :
    parseHitObjectsF "0,0,1000,2,0,L|0:0|1:1,9001,100" =
      .error (.thrown "Repeat count is way too high") ∧
    parseHitObjectsF "0,0,1000,2,0,L|0:0|1:1,3,100" = .ok (some c2WitnessObj) ∧
    c2WitnessObj.RepeatCount =
      some (jsMax (.num 0)
        (jsSub (jsNumberOpt ((jsSplitTrim "0,0,1000,2,0,L|0:0|1:1,3,100" ',').get? 6)) (.num 1))) := by
  have h : parseHitObjectsF "0,0,1000,2,0,L|0:0|1:1,3,100" = .ok (some c2WitnessObj) := by
    decide!
  refine ⟨?_, h, ?_⟩
  · exact C2_repeatOverflowAndClamp.1 "0,0,1000,2,0,L|0:0|1:1,9001,100"
      (by decide!) (by decide!) (by decide) (by decide!)
  · exact (C2_repeatOverflowAndClamp.2 "0,0,1000,2,0,L|0:0|1:1,3,100" c2WitnessObj h
      (by decide!) (by decide!)).1

/-- JS subtraction on finite numbers is exact rational subtraction. -/
lemma jsSub_num (p q : ℚ) : jsSub (.num p) (.num q) = .num (p - q) := by
  simp [jsSub, jsAdd, jsNeg, sub_eq_add_neg]

/-- JS Math.max on finite numbers is the rational maximum. -/
lemma jsMax_num (p q : ℚ) : jsMax (.num p) (.num q) = .num (max p q) := by
  simp only [jsMax, jsLt]
  by_cases h : p < q
  · simp [h, max_eq_right h.le]
  · simp [h, max_eq_left (not_lt.1 h)]

/-- JS addition on finite numbers is exact rational addition. -/
lemma jsAdd_num (p q : ℚ) : jsAdd (.num p) (.num q) = .num (p + q) := rfl

/-- A loop bounded by a positive integer-valued number runs exactly that
many iterations. -/
lemma jsLoopCount_intCast (z : ℤ) (hz : 0 < z) :
    jsLoopCount (.num (z : ℚ)) = z.toNat := by
  simp only [jsLoopCount]
  rw [if_neg (by exact_mod_cast not_le.2 hz), Int.ceil_intCast]

/-- The per-node sound list always has exactly n entries. -/
lemma sliderSounds_length (split : List String) (n : ℕ) (st : JSNum) :
    (sliderSounds split n st).length = n := by
  unfold sliderSounds
  split
  · rw [overlaySounds_length, List.length_replicate]
  · exact List.length_replicate n st

/-- The per-node bank list always has exactly n entries. -/
lemma sliderOverlayBanks_length (split : List String) (n : ℕ) (bi : SampleBankInfo)
    (l : List SampleBankInfo) (h : sliderOverlayBanks split n bi = .ok l) :
    l.length = n := by
  unfold sliderOverlayBanks at h
  split at h
  · rw [overlayBanks_length _ _ _ h, List.length_replicate]
  · rw [Except.ok.injEq] at h; rw [← h, List.length_replicate]

/-- C4 counterexample: the slider record with raw repeat field "2.5" is
emitted (2.5 is numeric and below 9000) with RepeatCount 1.5 but four node
sample lists, and 1.5 + 2 is not 4, so NodeSamples.length differs from
RepeatCount + 2. -/
theorem C4_nodeCount_counterexample :
    (match parseHitObjectsF "0,0,1000,2,0,L|0:0|1:1,2.5,100" with
     | .ok (some o) => o.RepeatCount
     | _ => none) = some (.num (3 / 2)) ∧
    (match parseHitObjectsF "0,0,1000,2,0,L|0:0|1:1,2.5,100" with
     | .ok (some o) => (o.NodeSamples.getD []).length
     | _ => 0) = 4 ∧
    jsAdd (.num (3 / 2)) (.num 2) ≠ .num 4 := by
  exact ⟨by decide!, by decide!, by decide!⟩

/-- C4 amended: for every emitted slider whose raw repeat field parses to an
integer m (necessarily at most 9000), the node count invariant holds:
RepeatCount = max(0, m - 1), NodeSamples has RepeatCount + 2 entries, and
Samples is exactly the last entry of NodeSamples. -/
theorem C4_nodeSamplesCountAndLastSample (line : String) (obj : HitObject) (m : ℤ)
    (h : parseHitObjectsF line = .ok (some obj))
    (hc : Nat.land (hoT2 (jsSplitTrim line ',')) 1 = 0)
    (hs : Nat.land (hoT2 (jsSplitTrim line ',')) 2 ≠ 0)
    (hm : jsNumberOpt ((jsSplitTrim line ',').get? 6) = .num (m : ℚ)) :
    obj.RepeatCount = some (.num (max 0 ((m : ℚ) - 1))) ∧
    obj.NodeSamples.isSome = true ∧
    ((obj.NodeSamples.getD []).length : ℚ) = max 0 ((m : ℚ) - 1) + 2 ∧
    obj.NodeSamples.getD [] ≠ [] ∧
    obj.Samples = (obj.NodeSamples.getD []).getLast? := by
  simp only [parseHitObjectsF] at h
  rw [if_neg (by simp [hc]), if_pos hs] at h
  simp only [parseSliderF] at h
  rw [hm] at h
  split at h
  next => cases h
  next f5 hg5 =>
    split at h
    next hgt => cases h
    next hgt =>
      split at h
      next => cases h
      next bankInfo hbi =>
        split at h
        next => cases h
        next nodeBankInfos2 hov =>
          rw [Except.ok.injEq, Option.some.injEq] at h
          have hrc : jsMax (JSNum.num 0) (jsSub (.num (m : ℚ)) (.num 1)) =
              .num (max 0 ((m : ℚ) - 1)) := by
            rw [jsSub_num, jsMax_num]
          have hcast : (max 0 ((m : ℚ) - 1) + 2) = ((max 0 (m - 1) + 2 : ℤ) : ℚ) := by
            push_cast
            rfl
          have hn : jsLoopCount (jsAdd (jsMax (JSNum.num 0)
              (jsSub (.num (m : ℚ)) (.num 1))) (.num 2)) = (max 0 (m - 1) + 2).toNat := by
            rw [hrc, jsAdd_num, hcast, jsLoopCount_intCast _ (by omega)]
          have hlen : (List.zipWith convertSoundTypeF
              (sliderSounds (jsSplitTrim line ',')
                (jsLoopCount (jsAdd (jsMax (JSNum.num 0)
                  (jsSub (.num (m : ℚ)) (.num 1))) (.num 2)))
                (jsNumberOpt ((jsSplitTrim line ',').get? 4)))
              nodeBankInfos2).length = (max 0 (m - 1) + 2).toNat := by
            rw [List.length_zipWith, sliderSounds_length,
              sliderOverlayBanks_length _ _ _ _ hov, min_self, hn]
          have hpos : 0 < (max 0 (m - 1) + 2).toNat := by omega
          have hne : (List.zipWith convertSoundTypeF
              (sliderSounds (jsSplitTrim line ',')
                (jsLoopCount (jsAdd (jsMax (JSNum.num 0)
                  (jsSub (.num (m : ℚ)) (.num 1))) (.num 2)))
                (jsNumberOpt ((jsSplitTrim line ',').get? 4)))
              nodeBankInfos2) ≠ [] := by
            intro hcon
            rw [hcon] at hlen
            simp at hlen
            omega
          obtain ⟨lastl, hlast⟩ := Option.isSome_iff_exists.1 (List.getLast?_isSome.2 hne)
          refine ⟨?_, ?_, ?_, ?_, ?_⟩
          · rw [← h, hoFinalize_RepeatCount, hrc]
          · rw [← h, hoFinalize_NodeSamples]; rfl
          · rw [← h, hoFinalize_NodeSamples]
            show ((List.zipWith convertSoundTypeF _ _).length : ℚ) = _
            rw [hlen, hcast]
            exact_mod_cast Int.toNat_of_nonneg (by omega)
          · rw [← h, hoFinalize_NodeSamples]
            exact hne
          · rw [← h, hoFinalize_NodeSamples]
            rw [hoFinalize_Samples _ _ _ _ lastl (by exact hlast)]
            exact hlast.symm

/-- The slider that the record "0,0,1000,2,0,L|0:0|2:2,2,100" decodes to. -/
def c4WitnessObj : HitObject :=
  { Combo := some false
    ComboOffset := some (.num 0)
    Points := some [ { x := .num 0, y := .num 0 }, { x := .num 2, y := .num 2 } ]
    Length := some (.num 100)
    PathType := some PathType.Linear
    RepeatCount := some (.num 1)
    NodeSamples := some (List.replicate 3
      [ { Bank := none, Name := some "hitnormal", Volume := none, CustomSampleBank := none } ])
    Samples := some
      [ { Bank := none, Name := some "hitnormal", Volume := none, CustomSampleBank := none } ]
    StartTime := some (.num 1000)
    Pos := some { x := .num 0, y := .num 0 } }

/-- C4 witness: the amended theorem applied to an emitted slider with
integer raw repeat field 2: RepeatCount 1, three node sample lists, and
Samples equal to the last of them. -/
theorem C4_nodeSamplesCountAndLastSample_witness :
    parseHitObjectsF "0,0,1000,2,0,L|0:0|2:2,2,100" = .ok (some c4WitnessObj) ∧
    c4WitnessObj.RepeatCount = some (.num (max 0 (((2 : ℤ) : ℚ) - 1))) ∧
    c4WitnessObj.NodeSamples.isSome = true ∧
    ((c4WitnessObj.NodeSamples.getD []).length : ℚ) = max 0 (((2 : ℤ) : ℚ) - 1) + 2 ∧
    c4WitnessObj.NodeSamples.getD [] ≠ [] ∧
    c4WitnessObj.Samples = (c4WitnessObj.NodeSamples.getD []).getLast? := by
  have h : parseHitObjectsF "0,0,1000,2,0,L|0:0|2:2,2,100" = .ok (some c4WitnessObj) := by
    decide!
  have h2 := C4_nodeSamplesCountAndLastSample "0,0,1000,2,0,L|0:0|2:2,2,100"
    c4WitnessObj 2 h (by decide!) (by decide!) (by decide!)
  exact ⟨h, h2.1, h2.2.1, h2.2.2.1, h2.2.2.2.1, h2.2.2.2.2⟩

/-- C7 counterexample: with object-level default bank token "0:0:5:60:"
(custom index 5, volume 60) and per-node token "2:1" (no custom index, no
volume), the first node's sample still carries Volume 60 and
CustomSampleBank 5: the per-node token did not replace the node's copy
entirely, although it has only 2 fields. -/
theorem C7_nodeOverlayKeepsDefaults_counterexample :
    (match parseHitObjectsF "0,0,1000,2,0,L|0:0|1:1,1,100,0|0,2:1|2:1,0:0:5:60:" with
     | .ok (some o) => (o.NodeSamples.getD []).headD []
     | _ => []) =
      [ { Bank := some "soft", Name := some "hitnormal",
          Volume := some (.num 60), CustomSampleBank := some (.num 5) } ] ∧
    (jsSplitTrim "2:1" ':').length = 2 := by
  exact ⟨by decide!, by decide⟩

/-- C7 amended: decoding a per-node token updates the node's copy in place:
CustomSampleBank is overwritten only when the token has more than 2 fields
and Volume only when it has more than 3, otherwise the node keeps the
object-level default's values; Filename is always overwritten (absent when
the token has at most 4 fields); and nodes beyond the token count keep the
default copy untouched. -/
theorem C7_nodeOverlayInPlace :
    (∀ (token : String) (info out : SampleBankInfo),
      readCustomSampleBanksF token info = .ok out →
      out.CustomSampleBank =
        (if 2 < (jsSplitTrim token ':').length
         then some (jsNumberOpt ((jsSplitTrim token ':').get? 2))
         else info.CustomSampleBank) ∧
      out.Volume =
        (if 3 < (jsSplitTrim token ':').length
         then some (jsNumberOpt ((jsSplitTrim token ':').get? 3))
         else info.Volume) ∧
      out.Filename =
        (if 4 < (jsSplitTrim token ':').length
         then (jsSplitTrim token ':').get? 4 else none)) ∧
    (∀ (ss : List String) (l l2 : List SampleBankInfo),
      overlayBanks ss l = .ok l2 → ∀ i : ℕ, ss.length ≤ i → l2.get? i = l.get? i) := by
  constructor
  · intro token info out h
    simp only [readCustomSampleBanksF] at h
    split at h
    next => cases h
    next sb hsb =>
      split at h
      next => cases h
      next sab hsab =>
        rw [Except.ok.injEq] at h
        subst h
        exact ⟨rfl, rfl, rfl⟩
  · exact overlayBanks_get_ge

/-- The default bank info decoded from the token "0:0:5:60:". -/
def c7DefaultInfo : SampleBankInfo :=
  { Filename := some "", Normal := none, Add := none,
    Volume := some (.num 60), CustomSampleBank := some (.num 5) }

/-- The node bank info after overlaying "2:1" onto the default. -/
def c7NodeInfo : SampleBankInfo :=
  { Filename := none, Normal := some "soft", Add := some "normal",
    Volume := some (.num 60), CustomSampleBank := some (.num 5) }

/-- C7 witness: the amended theorem applied to the token "2:1" over the
default info of "0:0:5:60:", and to the one-token overlay of a two-node
list, whose second node keeps the default. -/
theorem C7_nodeOverlayInPlace_witness :
    readCustomSampleBanksF "2:1" c7DefaultInfo = .ok c7NodeInfo ∧
    c7NodeInfo.CustomSampleBank =
      (if 2 < (jsSplitTrim "2:1" ':').length
       then some (jsNumberOpt ((jsSplitTrim "2:1" ':').get? 2))
       else c7DefaultInfo.CustomSampleBank) ∧
    c7NodeInfo.Volume =
      (if 3 < (jsSplitTrim "2:1" ':').length
       then some (jsNumberOpt ((jsSplitTrim "2:1" ':').get? 3))
       else c7DefaultInfo.Volume) ∧
    c7NodeInfo.Filename =
      (if 4 < (jsSplitTrim "2:1" ':').length
       then (jsSplitTrim "2:1" ':').get? 4 else none) ∧
    overlayBanks ["2:1"] [c7DefaultInfo, c7DefaultInfo] =
      .ok [c7NodeInfo, c7DefaultInfo] ∧
    [c7NodeInfo, c7DefaultInfo].get? 1 = [c7DefaultInfo, c7DefaultInfo].get? 1 := by
  have h : readCustomSampleBanksF "2:1" c7DefaultInfo = .ok c7NodeInfo := by decide!
  have hov : overlayBanks ["2:1"] [c7DefaultInfo, c7DefaultInfo] =
      .ok [c7NodeInfo, c7DefaultInfo] := by decide!
  have h1 := C7_nodeOverlayInPlace.1 "2:1" c7DefaultInfo c7NodeInfo h
  have h2 := C7_nodeOverlayInPlace.2 ["2:1"] [c7DefaultInfo, c7DefaultInfo]
    [c7NodeInfo, c7DefaultInfo] hov 1 (by decide)
  exact ⟨h, h1.1, h1.2.1, h1.2.2, hov, h2⟩

/-- C8 counterexample: with the current section Difficulty, the line
"[x: 3" starts with "[" but does not match the section pattern; the router
drops it and leaves the document unchanged, although forwarding it to the
Difficulty decoder would have stored the key "[x". -/
theorem C8_bracketLineDropped_counterexample :
    OsuParser.parse { initialDoc with currentSection := "Difficulty" } "[x: 3" =
      .ok { initialDoc with currentSection := "Difficulty" } ∧
    parseDifficultyF ({ initialDoc with currentSection := "Difficulty" } : Doc).difficulty
        "[x: 3" ≠
      ({ initialDoc with currentSection := "Difficulty" } : Doc).difficulty := by
  exact ⟨by decide!, by decide!⟩

/-- C8 amended: a line whose first character is "[" is consumed by the
section matcher: the current section becomes the first [token] substring
when one exists and otherwise the line is dropped; in either case no
decoder runs.  Every other line goes through the lookup
parsers[currentSection]: the four registered names run their decoder; a
name with no binding anywhere, one not inherited from Object.prototype,
leaves the document unchanged; the reachable section "__proto__" finds the
non-callable prototype object and the call aborts with a TypeError; and
every name inherited from Object.prototype either aborts with a TypeError
or leaves the document unchanged. -/
theorem C8_sectionRouting :
    (∀ (doc : Doc) (line : String), line.data.head? = some '[' →
      OsuParser.parse doc line =
        .ok { doc with currentSection := (findSection line.data).getD doc.currentSection }) ∧
    (∀ (doc : Doc) (line : String), line.data.head? ≠ some '[' →
      (doc.currentSection = "General" →
        OsuParser.parse doc line = .ok { doc with general := parseGeneralF doc.general line }) ∧
      (doc.currentSection = "Difficulty" →
        OsuParser.parse doc line =
          .ok { doc with difficulty := parseDifficultyF doc.difficulty line }) ∧
      (doc.currentSection = "TimingPoints" →
        OsuParser.parse doc line =
          (match parseTimingPointF (objGetD doc.general "SampleSet" .jsUndefined) line with
           | .error e => .error e
           | .ok none => .ok doc
           | .ok (some tp) => .ok { doc with timingPoints := doc.timingPoints ++ [tp] })) ∧
      (doc.currentSection = "HitObjects" →
        OsuParser.parse doc line =
          (match parseHitObjectsF line with
           | .error e => .error e
           | .ok none => .ok doc
           | .ok (some ho) => .ok { doc with hitObjects := doc.hitObjects ++ [ho] })) ∧
      (doc.currentSection ≠ "General" → doc.currentSection ≠ "Difficulty" →
       doc.currentSection ≠ "TimingPoints" → doc.currentSection ≠ "HitObjects" →
       doc.currentSection ∉ objectProtoNames →
        OsuParser.parse doc line = .ok doc) ∧
      (doc.currentSection = "__proto__" →
        OsuParser.parse doc line = .error .typeError) ∧
      (doc.currentSection ∈ objectProtoNames →
        OsuParser.parse doc line = .error .typeError ∨
        OsuParser.parse doc line = .ok doc)) := by
  constructor
  · intro doc line h
    unfold OsuParser.parse
    rw [if_pos h]
    unfold parseSectionF
    cases hf : findSection line.data with
    | none => rfl
    | some t => rfl
  · intro doc line h
    refine ⟨?_, ?_, ?_, ?_, ?_, ?_, ?_⟩
    · intro hg
      unfold OsuParser.parse
      rw [if_neg h]
      unfold parseLineF
      rw [if_pos hg]
    · intro hd
      unfold OsuParser.parse
      rw [if_neg h]
      unfold parseLineF
      rw [if_neg (by simp [hd]), if_pos hd]
    · intro ht
      unfold OsuParser.parse
      rw [if_neg h]
      unfold parseLineF
      rw [if_neg (by simp [ht]), if_neg (by simp [ht]), if_pos ht]
    · intro hh
      unfold OsuParser.parse
      rw [if_neg h]
      unfold parseLineF
      rw [if_neg (by simp [hh]), if_neg (by simp [hh]), if_neg (by simp [hh]), if_pos hh]
    · intro h1 h2 h3 h4 hp
      simp only [objectProtoNames, List.mem_cons, List.not_mem_nil, or_false, not_or] at hp
      obtain ⟨p1, p2, p3, p4, p5, p6, p7, p8, p9, p10, p11, p12⟩ := hp
      unfold OsuParser.parse
      rw [if_neg h]
      unfold parseLineF
      rw [if_neg h1, if_neg h2, if_neg h3, if_neg h4,
        if_neg (by simp [protoChainThrows, p1, p4, p5, p6, p8, p9, p10, p11, p12])]
    · intro hcs
      unfold OsuParser.parse
      rw [if_neg h]
      unfold parseLineF
      rw [if_neg (by rw [hcs]; decide), if_neg (by rw [hcs]; decide),
        if_neg (by rw [hcs]; decide), if_neg (by rw [hcs]; decide),
        if_pos (show protoChainThrows doc.currentSection = true by rw [hcs]; decide)]
    · intro hp
      simp only [objectProtoNames, List.mem_cons, List.not_mem_nil, or_false] at hp
      unfold OsuParser.parse
      rw [if_neg h]
      unfold parseLineF
      rcases hp with heq | heq | heq | heq | heq | heq | heq | heq | heq | heq | heq | heq <;>
        rw [heq] <;> simp [protoChainThrows]

/-- C8 witness: the amended theorem applied to the header line "[General]"
on the initial document, to a content line in the unregistered section
"Unknown" (left unchanged), and to a content line in the reachable section
"__proto__" (aborts with a TypeError). -/
theorem C8_sectionRouting_witness :
    ("[General]" : String).data.head? = some '[' ∧
    OsuParser.parse initialDoc "[General]" =
      .ok { initialDoc with
            currentSection := (findSection ("[General]" : String).data).getD
              initialDoc.currentSection } ∧
    ("0,200" : String).data.head? ≠ some '[' ∧
    OsuParser.parse { initialDoc with currentSection := "Unknown" } "0,200" =
      .ok { initialDoc with currentSection := "Unknown" } ∧
    OsuParser.parse initialDoc "[__proto__]" =
      .ok { initialDoc with currentSection := "__proto__" } ∧
    OsuParser.parse { initialDoc with currentSection := "__proto__" } "0,200" =
      .error .typeError := by
  refine ⟨by decide, C8_sectionRouting.1 initialDoc "[General]" (by decide), by decide,
    ?_, by decide!, ?_⟩
  · exact (C8_sectionRouting.2 { initialDoc with currentSection := "Unknown" } "0,200"
      (by decide)).2.2.2.2.1 (by decide) (by decide) (by decide) (by decide) (by decide)
  · exact (C8_sectionRouting.2 { initialDoc with currentSection := "__proto__" } "0,200"
      (by decide)).2.2.2.2.2.1 rfl
